import Mathlib

/-!
Shallow embedding of the signaling-and-connection-management layer of the
WebRTC peer-to-peer communication application, together with proofs about
the claims of its specification.

Sources embedded here:
* the signaling optimization utilities (`optimizeIceCandidates`,
  `ConnectionQualityMonitor`, `ConnectionStateManager`,
  `setupFallbackMechanism`);
* the `SignalingService` class (message dispatch, send, pending-candidate
  helpers);
* the `WebRTCService` class (peer-connection registry);
* the `OptimizedMeeting` component's signaling-message handler.

JavaScript `Map` objects are modelled as association lists with
`Map.set`/`Map.get`/`Map.delete` semantics, numbers used in the quality
arithmetic are modelled as rationals, and the externally-asynchronous
negotiation primitive is modelled as a function returning `Except`.
-/

/-! ## Candidate Prioritizer (`optimizeIceCandidates`) -/

/-- Decides whether the pattern list occurs right at the start of the text
list.  Helper for the JavaScript `String.prototype.includes` test used by
`getPriority`. -/
def subAtHead : List Char → List Char → Bool
  | [], _ => true
  | _ :: _, [] => false
  | a :: pa, b :: tb => a == b && subAtHead pa tb

/-- Decides whether the pattern list occurs contiguously anywhere in the
text list. -/
def hasSubList (pat : List Char) : List Char → Bool
  | [] => subAtHead pat []
  | b :: tb => subAtHead pat (b :: tb) || hasSubList pat tb

/-- Model of the JavaScript `s.includes(pat)` substring test. -/
def strIncludes (s pat : String) : Bool :=
  hasSubList pat.toList s.toList

/-- Model of one remote ICE candidate record (`RTCIceCandidateInit`): the
candidate descriptor string, the media identifier `sdpMid`, and the
remaining payload of the record (`sdpMLineIndex`), which keeps records with
an equal deduplication key distinguishable. -/
structure RTCIceCandidateInit where
  candidate : String
  sdpMid : String
  sdpMLineIndex : Nat
  deriving DecidableEq

/-- Embedding of the `getPriority` closure inside `optimizeIceCandidates`
(signaling optimizer source): priority 3 for a descriptor containing
`host`, 2 for `srflx`, 1 for `relay`, 0 otherwise, tested in that order. -/
def getPriority (candidate : String) : Nat :=
  if strIncludes candidate "host" then 3
  else if strIncludes candidate "srflx" then 2
  else if strIncludes candidate "relay" then 1
  else 0

/-- Deduplication key test used by the `findIndex` callback inside
`optimizeIceCandidates`: equality of the (candidate descriptor, `sdpMid`)
pair. -/
def candKeyEq (c other : RTCIceCandidateInit) : Bool :=
  c.candidate == other.candidate && c.sdpMid == other.sdpMid

/-- Embedding of the `uniqueCandidates` intermediate value of
`optimizeIceCandidates`: the JavaScript
`candidates.filter((candidate, index, self) => index === self.findIndex(c =>
sameKey))` idiom, written over the index-annotated list. -/
def uniqueCandidates (candidates : List RTCIceCandidateInit) :
    List RTCIceCandidateInit :=
  ((candidates.enum).filter
    (fun ic => candidates.findIdx (fun c => candKeyEq c ic.2) == ic.1)).map
    Prod.snd

/-- Embedding of the sort comparator of `optimizeIceCandidates`:
`getPriority(b.candidate) - getPriority(a.candidate)` over the integers. -/
def compareFn (a b : RTCIceCandidateInit) : Int :=
  (getPriority b.candidate : Int) - (getPriority a.candidate : Int)

/-- Relation `a` sorts no later than `b` induced by `compareFn`
(comparator result at most 0), which is what a stable comparison sort
realizes. -/
def candLE (a b : RTCIceCandidateInit) : Prop :=
  compareFn a b ≤ 0

instance : DecidableRel candLE :=
  fun a b => inferInstanceAs (Decidable (compareFn a b ≤ 0))

instance : IsTotal RTCIceCandidateInit candLE :=
  ⟨fun a b => by unfold candLE compareFn; omega⟩

instance : IsTrans RTCIceCandidateInit candLE :=
  ⟨fun a b c => by unfold candLE compareFn; omega⟩

/-- Embedding of `optimizeIceCandidates` (signaling optimizer source):
deduplicate by (descriptor, `sdpMid`) keeping the first occurrence, then
stably sort by descending type priority.  JavaScript `Array.prototype.sort`
is required to be a stable sort (ES2019), and with a consistent comparator
every stable sort yields the same output list, here realized by
`List.insertionSort`; the `filter` call copies the array, so the input
array is never mutated. -/
def optimizeIceCandidates (candidates : List RTCIceCandidateInit) :
    List RTCIceCandidateInit :=
  (uniqueCandidates candidates).insertionSort candLE

/-- Embedding of the outbound-candidate wiring inside
`WebRTCService.setupPeerConnectionEvents`: on a gathered candidate the code
computes `optimizeIceCandidates([event.candidate])[0]` and forwards it to
the registered `onIceCandidate` callback.  A JavaScript `[0]` access on a
possibly empty array is modelled by `List.head?`. -/
def onIceCandidateEmission (candidate : RTCIceCandidateInit) :
    Option RTCIceCandidateInit :=
  (optimizeIceCandidates [candidate]).head?

/-! ## Connection Quality Monitor (`ConnectionQualityMonitor`) -/

/-- Quality labels emitted by the monitor. -/
inductive ConnectionQuality where
  | poor
  | fair
  | good
  deriving DecidableEq

/-- Rank of a quality label in the order poor < fair < good, used to state
the specification's phrase "at least fair". -/
def ConnectionQuality.rank : ConnectionQuality → Nat
  | .poor => 0
  | .fair => 1
  | .good => 2

/-- Embedding of the quality classification at the end of each sampling
callback of `ConnectionQualityMonitor.startMonitoring`: `quality` starts as
`good`, is overridden by the bitrate thresholds, and that verdict is then
overridden by the packet-loss thresholds. -/
def classifyQuality (totalBitrate packetLossRate : ℚ) : ConnectionQuality :=
  let quality := ConnectionQuality.good
  let quality1 :=
    if totalBitrate < 100000 then ConnectionQuality.poor
    else if totalBitrate < 500000 then ConnectionQuality.fair
    else quality
  if packetLossRate > 5 / 100 then ConnectionQuality.poor
  else if packetLossRate > 1 / 100 then ConnectionQuality.fair
  else quality1

/-- Model of one report of the statistics snapshot delivered by
`getStats()`; only the fields read by the monitor are kept. -/
structure StatsReport where
  type : String
  kind : String
  timestamp : ℚ
  bytesReceived : ℚ
  packetsReceived : ℚ
  packetsLost : Option ℚ
  deriving DecidableEq

/-- Mutable fields of `ConnectionQualityMonitor`: `lastBitrate` (despite
its name it stores the last observed `bytesReceived`) and
`lastTimestamp`. -/
structure MonitorState where
  lastBitrate : ℚ
  lastTimestamp : ℚ
  deriving DecidableEq

/-- Initial monitor state set by the `ConnectionQualityMonitor`
constructor: both fields are 0. -/
def monitorInit : MonitorState :=
  { lastBitrate := 0, lastTimestamp := 0 }

/-- Accumulators of one sampling callback (`totalBitrate`, `packetsLost`,
`totalPackets`), initialized to 0 at the start of each sample. -/
structure SampleAccum where
  totalBitrate : ℚ
  packetsLost : ℚ
  totalPackets : ℚ
  deriving DecidableEq

/-- Metrics object passed to `onQualityChange` on every sample. -/
structure QualityEvent where
  quality : ConnectionQuality
  bitrate : ℚ
  packetLossRate : ℚ
  timestamp : ℚ
  deriving DecidableEq

/-- Embedding of the `stats.forEach(report => ...)` body of
`ConnectionQualityMonitor.startMonitoring`: for an inbound video report,
accumulate the instantaneous bitrate only when `lastTimestamp` is truthy
(nonzero), then record the new baseline, then accumulate packet counters
when `packetsLost` is present. -/
def processReport (st : MonitorState) (acc : SampleAccum)
    (report : StatsReport) : MonitorState × SampleAccum :=
  if report.type == "inbound-rtp" && report.kind == "video" then
    let now := report.timestamp
    let bytes := report.bytesReceived
    let acc1 :=
      if st.lastTimestamp ≠ 0 then
        { acc with totalBitrate :=
            acc.totalBitrate + 8 * (bytes - st.lastBitrate) / (now - st.lastTimestamp) }
      else acc
    let st1 : MonitorState := { lastBitrate := bytes, lastTimestamp := now }
    match report.packetsLost with
    | some lost =>
        (st1,
         { acc1 with
            packetsLost := acc1.packetsLost + lost,
            totalPackets := acc1.totalPackets + (report.packetsReceived + lost) })
    | none => (st1, acc1)
  else (st, acc)

/-- Embedding of one complete sampling callback of
`ConnectionQualityMonitor.startMonitoring`: fold the report processing over
the statistics snapshot, compute the packet-loss rate, classify, and emit
the quality event (the callback invokes `onQualityChange`
unconditionally).  `nowMs` is the external clock value `Date.now()`. -/
def processSample (st : MonitorState) (reports : List StatsReport)
    (nowMs : ℚ) : MonitorState × QualityEvent :=
  let folded := reports.foldl (fun p r => processReport p.1 p.2 r)
    (st, { totalBitrate := 0, packetsLost := 0, totalPackets := 0 })
  let packetLossRate :=
    if folded.2.totalPackets > 0 then folded.2.packetsLost / folded.2.totalPackets
    else 0
  (folded.1,
   { quality := classifyQuality folded.2.totalBitrate packetLossRate,
     bitrate := folded.2.totalBitrate,
     packetLossRate := packetLossRate,
     timestamp := nowMs })

/-! ## Reconnection Policy (`ConnectionStateManager`) -/

/-- Mutable fields of `ConnectionStateManager`. -/
structure ConnectionStateManager where
  reconnectAttempts : Nat
  maxReconnectAttempts : Nat
  reconnectDelay : Nat
  deriving DecidableEq

/-- Initial manager state set by the `ConnectionStateManager` constructor:
counter 0, maximum 3, base delay 1000 ms. -/
def newConnectionStateManager : ConnectionStateManager :=
  { reconnectAttempts := 0, maxReconnectAttempts := 3, reconnectDelay := 1000 }

/-- Embedding of `ConnectionStateManager.handleDisconnection`: when the
counter is below the maximum, increment it and schedule an ICE restart
after `reconnectDelay * 2 ^ (attempts - 1)` milliseconds (the incremented
value is used in the exponent); otherwise do nothing.  The second component
is the scheduled restart delay, when one is scheduled. -/
def handleDisconnection (m : ConnectionStateManager) :
    ConnectionStateManager × Option Nat :=
  if m.reconnectAttempts < m.maxReconnectAttempts then
    let m' := { m with reconnectAttempts := m.reconnectAttempts + 1 }
    (m', some (m.reconnectDelay * 2 ^ (m'.reconnectAttempts - 1)))
  else (m, none)

/-- Outcome of the `connectionstatechange` listener installed by
`ConnectionStateManager.startMonitoring`: the updated manager, the state
forwarded to `onStateChange` (always forwarded), and the scheduled restart
delay when one was scheduled. -/
structure StateChangeOutcome where
  manager : ConnectionStateManager
  emittedState : String
  scheduledRestartDelay : Option Nat
  deriving DecidableEq

/-- Embedding of the `connectionstatechange` listener of
`ConnectionStateManager.startMonitoring`: forward the state to
`onStateChange`, then call `handleDisconnection` exactly when the state is
`disconnected` or `failed`.  No other code path touches
`reconnectAttempts`. -/
def connectionStateChangeListener (m : ConnectionStateManager)
    (connectionState : String) : StateChangeOutcome :=
  if connectionState == "disconnected" || connectionState == "failed" then
    let p := handleDisconnection m
    { manager := p.1, emittedState := connectionState,
      scheduledRestartDelay := p.2 }
  else
    { manager := m, emittedState := connectionState,
      scheduledRestartDelay := none }

/-- Embedding of the `iceconnectionstatechange` listener of
`ConnectionStateManager.startMonitoring`: call `handleDisconnection`
exactly when the ICE state is `disconnected` or `failed`. -/
def iceConnectionStateChangeListener (m : ConnectionStateManager)
    (iceConnectionState : String) : ConnectionStateManager × Option Nat :=
  if iceConnectionState == "disconnected" || iceConnectionState == "failed" then
    handleDisconnection m
  else (m, none)

/-- Embedding of `ConnectionStateManager.resetReconnectAttempts`: zero the
counter.  In the source this method is defined but never invoked by any
component. -/
def resetReconnectAttempts (m : ConnectionStateManager) :
    ConnectionStateManager :=
  { m with reconnectAttempts := 0 }

/-! ## Fallback Negotiation (`setupFallbackMechanism`) -/

/-- Model of a session description produced by the negotiation
primitive. -/
structure RTCSessionDescription where
  sdp : String
  deriving DecidableEq

/-- Model of the rejection value of a failed negotiation-primitive call. -/
structure OfferError where
  message : String
  deriving DecidableEq

/-- Model of the offer options object.  The three fields set by the
fallback are kept, together with one further field (`iceRestart`) standing
for the rest of the caller-supplied options, which the object spread in the
fallback preserves. -/
structure RTCOfferOptions where
  offerToReceiveAudio : Option Bool
  offerToReceiveVideo : Option Bool
  voiceActivityDetection : Option Bool
  iceRestart : Option Bool
  deriving DecidableEq

/-- Embedding of the `fallbackOptions` object built inside
`setupFallbackMechanism`: spread the caller-supplied options, then enable
`offerToReceiveAudio`, `offerToReceiveVideo` and
`voiceActivityDetection`. -/
def fallbackOptions (options : RTCOfferOptions) : RTCOfferOptions :=
  { options with
    offerToReceiveAudio := some true,
    offerToReceiveVideo := some true,
    voiceActivityDetection := some true }

/-- Embedding of the `createOffer` override installed by
`setupFallbackMechanism`: try the original `createOffer` with the
caller-supplied options; on rejection, retry once with the fallback
options, propagating the retry's outcome.  The externally-asynchronous
primitive is modelled as a function `originalCreateOffer` returning
`Except`. -/
def createOfferWithFallback
    (originalCreateOffer : RTCOfferOptions → Except OfferError RTCSessionDescription)
    (options : RTCOfferOptions) : Except OfferError RTCSessionDescription :=
  match originalCreateOffer options with
  | .ok offer => .ok offer
  | .error _ => originalCreateOffer (fallbackOptions options)

/-- Number of invocations of the underlying negotiation primitive performed
by one `createOfferWithFallback` call: one when the primary attempt
resolves, two when it rejects (the single retry). -/
def createOfferAttemptCount
    (originalCreateOffer : RTCOfferOptions → Except OfferError RTCSessionDescription)
    (options : RTCOfferOptions) : Nat :=
  match originalCreateOffer options with
  | .ok _ => 1
  | .error _ => 2

/-! ## JavaScript `Map` model -/

/-- Model of `Map.prototype.get`: the value stored at the first matching
key, when present. -/
def mapGet {β : Type} : List (String × β) → String → Option β
  | [], _ => none
  | e :: rest, k => if e.1 == k then some e.2 else mapGet rest k

/-- Model of `Map.prototype.set`: replace the value at an existing key in
place, otherwise append a new entry. -/
def mapSet {β : Type} : List (String × β) → String → β → List (String × β)
  | [], k, v => [(k, v)]
  | e :: rest, k, v =>
      if e.1 == k then (k, v) :: rest else e :: mapSet rest k v

/-- Model of `Map.prototype.delete`: remove the entry at the key. -/
def mapDelete {β : Type} : List (String × β) → String → List (String × β)
  | [], _ => []
  | e :: rest, k => if e.1 == k then rest else e :: mapDelete rest k

/-! ## Peer Connection Registry (`WebRTCService`) -/

/-- Model of one underlying negotiated-media handle (`RTCPeerConnection`).
`hid` records the allocation order of `new RTCPeerConnection(...)`, so two
handles created by different calls differ; the remaining fields model the
negotiation state relevant to the claims: the applied local and remote
descriptions and the remote candidates applied through
`addIceCandidate`. -/
structure RTCPeerConnection where
  hid : Nat
  localDescription : Option RTCSessionDescription
  remoteDescription : Option RTCSessionDescription
  addedIceCandidates : List RTCIceCandidateInit
  closed : Bool
  deriving DecidableEq

/-- Model of `new RTCPeerConnection(configuration)`: a fresh handle with
empty negotiation state. -/
def newRTCPeerConnection (hid : Nat) : RTCPeerConnection :=
  { hid := hid, localDescription := none, remoteDescription := none,
    addedIceCandidates := [], closed := false }

/-- State of `WebRTCService`: the `peerConnections` map and an allocation
counter giving fresh `hid` values.  The `qualityMonitors` and
`stateManagers` maps are omitted; no claim depends on them. -/
structure WebRTCService where
  nextHandleId : Nat
  peerConnections : List (String × RTCPeerConnection)
  deriving DecidableEq

/-- State of the `WebRTCService` singleton at construction. -/
def WebRTCService.empty : WebRTCService :=
  { nextHandleId := 0, peerConnections := [] }

/-- Embedding of `WebRTCService.createPeerConnection`: unconditionally
allocate a new `RTCPeerConnection` (there is no existence check), wire its
events, store it in the map with `Map.set` (replacing any entry already
present for `peerId`), and return it.  The method never reads any pending
candidate store. -/
def WebRTCService.createPeerConnection (svc : WebRTCService)
    (peerId : String) : WebRTCService × RTCPeerConnection :=
  let peerConnection := newRTCPeerConnection svc.nextHandleId
  ({ nextHandleId := svc.nextHandleId + 1,
     peerConnections := mapSet svc.peerConnections peerId peerConnection },
   peerConnection)

/-- Embedding of `WebRTCService.setRemoteDescription`: apply the
description when an entry exists, otherwise reject with
`No peer connection found for peer ...`. -/
def WebRTCService.setRemoteDescription (svc : WebRTCService)
    (peerId : String) (description : RTCSessionDescription) :
    Except String WebRTCService :=
  match mapGet svc.peerConnections peerId with
  | some pc =>
      let pc1 := { pc with remoteDescription := some description }
      .ok { svc with peerConnections := mapSet svc.peerConnections peerId pc1 }
  | none => .error ("No peer connection found for peer " ++ peerId)

/-- Embedding of `WebRTCService.addIceCandidate`: apply the candidate to
the entry's handle when an entry exists, otherwise reject with
`No peer connection found for peer ...`.  Nothing is enqueued in the
rejecting branch. -/
def WebRTCService.addIceCandidate (svc : WebRTCService) (peerId : String)
    (candidate : RTCIceCandidateInit) : Except String WebRTCService :=
  match mapGet svc.peerConnections peerId with
  | some pc =>
      let pc1 := { pc with addedIceCandidates := pc.addedIceCandidates ++ [candidate] }
      .ok { svc with peerConnections := mapSet svc.peerConnections peerId pc1 }
  | none => .error ("No peer connection found for peer " ++ peerId)

/-- Embedding of `WebRTCService.closeConnection`: when an entry exists,
stop its monitors, close the handle and remove the entry; otherwise do
nothing. -/
def WebRTCService.closeConnection (svc : WebRTCService) (peerId : String) :
    WebRTCService :=
  match mapGet svc.peerConnections peerId with
  | some _ => { svc with peerConnections := mapDelete svc.peerConnections peerId }
  | none => svc

/-! ## Signaling Channel Adapter (`SignalingService`) -/

/-- Value of the `WebSocket.OPEN` ready-state constant. -/
def wsOPEN : Nat := 1

/-- Model of a parsed signaling envelope; only the routing fields are kept
(the kind-specific payload plays no role in the routing claims). -/
structure SignalingMessage where
  type : String
  fromId : Option String
  toId : Option String
  deriving DecidableEq

/-- Which of the `SignalingService` callback slots are registered
(non-null). -/
structure SignalingCallbacks where
  onSignalingMessage : Bool
  onRoomCreated : Bool
  onRoomJoined : Bool
  onRoomError : Bool
  onParticipantJoined : Bool
  onParticipantLeft : Bool
  deriving DecidableEq

/-- Handler invocation performed by `SignalingService.handleSignalingMessage`
for one incoming message. -/
inductive SignalingDispatch where
  | roomCreated
  | roomJoined
  | participantJoined
  | participantLeft
  | signalingMessage (message : SignalingMessage)
  | unknownLogged
  deriving DecidableEq

/-- Embedding of `SignalingService.handleSignalingMessage`: the switch on
`message.type` routes `offer`, `answer` and `ice_candidate` envelopes to
the registered `onSignalingMessage` callback, and the room/participant
kinds to their dedicated callbacks; an unknown kind is logged.  `none`
means the matching callback slot was not registered, so nothing ran.  Note
that the dispatch consults neither `to` nor the local username. -/
def SignalingService.handleSignalingMessage (callbacks : SignalingCallbacks)
    (message : SignalingMessage) : Option SignalingDispatch :=
  if message.type == "room_created" then
    if callbacks.onRoomCreated then some .roomCreated else none
  else if message.type == "room_joined" then
    if callbacks.onRoomJoined then some .roomJoined else none
  else if message.type == "participant_joined" then
    if callbacks.onParticipantJoined then some .participantJoined else none
  else if message.type == "participant_left" then
    if callbacks.onParticipantLeft then some .participantLeft else none
  else if message.type == "offer" then
    if callbacks.onSignalingMessage then some (.signalingMessage message) else none
  else if message.type == "answer" then
    if callbacks.onSignalingMessage then some (.signalingMessage message) else none
  else if message.type == "ice_candidate" then
    if callbacks.onSignalingMessage then some (.signalingMessage message) else none
  else some .unknownLogged

/-- Channel-relevant state of `SignalingService`: the ready state of the
socket when one exists. -/
structure SignalingChannelState where
  socket : Option Nat
  deriving DecidableEq

/-- Observable outcome of one `sendSignalingMessage` call: either the
serialized envelope goes out on the socket, or the failure is logged with
`WebSocket is not open`. -/
inductive SendResult where
  | sentFrame (message : SignalingMessage)
  | notOpenLogged
  deriving DecidableEq

/-- Embedding of `SignalingService.sendSignalingMessage`: send when a
socket exists and its ready state is `OPEN`, otherwise log
`WebSocket is not open`.  The method never throws and never stores the
message; the returned state equals the input state in both branches. -/
def SignalingService.sendSignalingMessage (channel : SignalingChannelState)
    (message : SignalingMessage) : SignalingChannelState × SendResult :=
  match channel.socket with
  | some readyState =>
      if readyState == wsOPEN then (channel, .sentFrame message)
      else (channel, .notOpenLogged)
  | none => (channel, .notOpenLogged)

/-- Embedding of `SignalingService.storePendingCandidate`: append the
candidate to the per-peer pending list, creating the list first when
absent. -/
def storePendingCandidate
    (pendingCandidates : List (String × List RTCIceCandidateInit))
    (peerId : String) (candidate : RTCIceCandidateInit) :
    List (String × List RTCIceCandidateInit) :=
  match mapGet pendingCandidates peerId with
  | some stored => mapSet pendingCandidates peerId (stored ++ [candidate])
  | none => mapSet pendingCandidates peerId [candidate]

/-- Embedding of `SignalingService.getPendingCandidates`: the stored list,
or the empty list. -/
def getPendingCandidates
    (pendingCandidates : List (String × List RTCIceCandidateInit))
    (peerId : String) : List RTCIceCandidateInit :=
  (mapGet pendingCandidates peerId).getD []

/-- Embedding of `SignalingService.clearPendingCandidates`: delete the
per-peer pending list. -/
def clearPendingCandidates
    (pendingCandidates : List (String × List RTCIceCandidateInit))
    (peerId : String) : List (String × List RTCIceCandidateInit) :=
  mapDelete pendingCandidates peerId

/-! ## Meeting-level signaling handler (`OptimizedMeeting`) -/

/-- Action taken by the meeting component's `handleSignalingMessage` for
one message delivered through the adapter's `onSignalingMessage`
callback. -/
inductive MeetingAction where
  | ignored
  | handleOffer (message : SignalingMessage)
  | handleAnswer (message : SignalingMessage)
  | handleRemoteIceCandidate (message : SignalingMessage)
  | unknownLogged
  deriving DecidableEq

/-- Embedding of `OptimizedMeeting.handleSignalingMessage`: return without
any processing when `to` differs from the local username, otherwise
dispatch on the message type. -/
def OptimizedMeeting.handleSignalingMessage (username : String)
    (message : SignalingMessage) : MeetingAction :=
  if message.toId ≠ some username then .ignored
  else if message.type == "offer" then .handleOffer message
  else if message.type == "answer" then .handleAnswer message
  else if message.type == "ice_candidate" then .handleRemoteIceCandidate message
  else .unknownLogged

/-! ## Claim C10: the outbound-candidate wiring is the identity on the
gathered candidate -/

/-- C10: the registry's outbound-candidate wiring calls the prioritizer on
the one-element list holding the just-gathered candidate and forwards its
first element; `optimizeIceCandidates` on any one-element list is the
identity, so the emitted candidate equals the gathered candidate unchanged,
and deduplication/ranking never affect the emitted stream. -/
theorem optimizeIceCandidates_singleton_identity (c : RTCIceCandidateInit) :
    optimizeIceCandidates [c] = [c] ∧ onIceCandidateEmission c = some c := by
  have hkey : candKeyEq c c = true := by simp [candKeyEq]
  have h : optimizeIceCandidates [c] = [c] := by
    simp [optimizeIceCandidates, uniqueCandidates, List.enum, List.enumFrom,
      List.findIdx_cons, hkey, List.insertionSort]
  exact ⟨h, by simp [onIceCandidateEmission, h]⟩

/-! ## Claim C3: quality classification -/

/-- C3: the emitted classification is bitrate-first (poor below 100000,
fair below 500000, good otherwise) and is then overridden by packet loss:
loss above 5 percent forces poor, loss in (1 percent, 5 percent] forces at
least fair (the code produces exactly fair there), loss at most 1 percent
leaves the bitrate verdict; the five concrete sample points of the
specification evaluate as claimed. -/
theorem classifyQuality_spec :
    (∀ b l : ℚ, l ≤ 1 / 100 →
      classifyQuality b l =
        (if b < 100000 then ConnectionQuality.poor
         else if b < 500000 then ConnectionQuality.fair
         else ConnectionQuality.good)) ∧
    (∀ b l : ℚ, 5 / 100 < l → classifyQuality b l = ConnectionQuality.poor) ∧
    (∀ b l : ℚ, 1 / 100 < l → l ≤ 5 / 100 →
      ConnectionQuality.fair.rank ≤ (classifyQuality b l).rank) ∧
    classifyQuality 50000 0 = ConnectionQuality.poor ∧
    classifyQuality 300000 0 = ConnectionQuality.fair ∧
    classifyQuality 1000000 (6 / 100) = ConnectionQuality.poor ∧
    classifyQuality 1000000 (2 / 100) = ConnectionQuality.fair ∧
    classifyQuality 1000000 0 = ConnectionQuality.good := by
  refine ⟨?_, ?_, ?_, ?_, ?_, ?_, ?_, ?_⟩
  · intro b l h
    unfold classifyQuality
    split_ifs <;> first | rfl | linarith
  · intro b l h
    unfold classifyQuality
    split_ifs <;> first | rfl | linarith
  · intro b l h1 h2
    unfold classifyQuality
    split_ifs <;> first | linarith | decide
  all_goals norm_num [classifyQuality]

/-- Witness for C3: the loss overrides applied at concrete inputs through
`classifyQuality_spec` itself. -/
theorem classifyQuality_spec_witness :
    classifyQuality 700000 (6 / 100) = ConnectionQuality.poor ∧
    ConnectionQuality.fair.rank ≤ (classifyQuality 700000 (3 / 100)).rank ∧
    classifyQuality 700000 (1 / 200) = ConnectionQuality.good := by
  refine ⟨classifyQuality_spec.2.1 700000 (6 / 100) (by norm_num),
    classifyQuality_spec.2.2.1 700000 (3 / 100) (by norm_num) (by norm_num),
    ?_⟩
  have h := classifyQuality_spec.1 700000 (1 / 200) (by norm_num)
  rw [h]
  norm_num

/-! ## Claim C9: offer-creation fallback -/

/-- C9: when the primary offer-creation attempt with the caller-supplied
options fails, exactly one retry is made with the conservative fallback
option set (receive-audio, receive-video and voice-activity-detection all
enabled, other options preserved); a successful retry's description is
returned after exactly 2 attempts, a failed retry's error propagates, and
no call makes more than two attempts. -/
theorem createOffer_fallback_spec
    (orig : RTCOfferOptions → Except OfferError RTCSessionDescription)
    (options : RTCOfferOptions) :
    createOfferAttemptCount orig options ≤ 2 ∧
    (∀ d, orig options = .ok d →
      createOfferWithFallback orig options = .ok d ∧
      createOfferAttemptCount orig options = 1) ∧
    (∀ e, orig options = .error e →
      createOfferWithFallback orig options = orig (fallbackOptions options) ∧
      createOfferAttemptCount orig options = 2 ∧
      (fallbackOptions options).offerToReceiveAudio = some true ∧
      (fallbackOptions options).offerToReceiveVideo = some true ∧
      (fallbackOptions options).voiceActivityDetection = some true ∧
      (fallbackOptions options).iceRestart = options.iceRestart) := by
  cases horig : orig options <;>
    simp [createOfferWithFallback, createOfferAttemptCount, fallbackOptions, horig]

/-- Witness for C9: a primitive that rejects the primary options and
resolves the fallback options, run through `createOffer_fallback_spec`. -/
theorem createOffer_fallback_spec_witness :
    createOfferWithFallback
        (fun o => if o.offerToReceiveAudio = some true then .ok ⟨"fallback-sdp"⟩
          else .error ⟨"rejected"⟩)
        ⟨none, none, none, some false⟩ = .ok ⟨"fallback-sdp"⟩ ∧
    createOfferAttemptCount
        (fun o => if o.offerToReceiveAudio = some true then .ok ⟨"fallback-sdp"⟩
          else .error ⟨"rejected"⟩)
        ⟨none, none, none, some false⟩ = 2 := by
  have h := (createOffer_fallback_spec
    (fun o => if o.offerToReceiveAudio = some true then .ok ⟨"fallback-sdp"⟩
      else .error ⟨"rejected"⟩)
    ⟨none, none, none, some false⟩).2.2 ⟨"rejected"⟩ (by simp)
  exact ⟨by rw [h.1]; simp [fallbackOptions], h.2.1⟩

/-! ## Claim C5: counter reset on reaching a connected state -/

/-- C5 (code-bug evaluation): a manager whose counter is 2 observes a
`connectionstatechange` to `connected`; the listener only forwards the
state and leaves the counter at 2, and the ICE listener likewise changes
nothing, even though `resetReconnectAttempts` (which the specification says
is called here) would zero it.  No code path invokes
`resetReconnectAttempts`. -/
theorem connected_state_does_not_reset_counter :
    connectionStateChangeListener
        { reconnectAttempts := 2, maxReconnectAttempts := 3, reconnectDelay := 1000 }
        "connected" =
      ⟨⟨2, 3, 1000⟩, "connected", none⟩ ∧
    iceConnectionStateChangeListener
        { reconnectAttempts := 2, maxReconnectAttempts := 3, reconnectDelay := 1000 }
        "connected" =
      (⟨2, 3, 1000⟩, none) ∧
    resetReconnectAttempts
        { reconnectAttempts := 2, maxReconnectAttempts := 3, reconnectDelay := 1000 } =
      { reconnectAttempts := 0, maxReconnectAttempts := 3, reconnectDelay := 1000 } := by
  decide

/-! ## Claim C1: pending-candidate queue -/

/-- Decidable equality of `Except` results, used to evaluate the embedded
registry operations on concrete inputs. -/
instance {e a : Type} [DecidableEq e] [DecidableEq a] : DecidableEq (Except e a) := fun
  | .ok x, .ok y =>
      match decEq x y with
      | isTrue h => isTrue (h ▸ rfl)
      | isFalse h => isFalse (fun he => h (Except.ok.inj he))
  | .error x, .error y =>
      match decEq x y with
      | isTrue h => isTrue (h ▸ rfl)
      | isFalse h => isFalse (fun he => h (Except.error.inj he))
  | .ok _, .error _ => isFalse Except.noConfusion
  | .error _, .ok _ => isFalse Except.noConfusion

/-- C1 (code-bug evaluation): a remote candidate delivered through
`WebRTCService.addIceCandidate` while no entry exists for the peer is
rejected with `No peer connection found for peer ...` and stored nowhere,
and a later `createPeerConnection` returns a handle with no applied
candidates (it replays nothing).  The `SignalingService` pending-candidate
helpers implement exactly the queue the specification describes, but no
code path ever calls them. -/
theorem addIceCandidate_rejects_when_no_entry :
    WebRTCService.addIceCandidate WebRTCService.empty "peerA"
        ⟨"candidate:9 1 udp 1 1.1.1.1 1 typ host", "0", 0⟩ =
      Except.error "No peer connection found for peer peerA" ∧
    ((WebRTCService.createPeerConnection WebRTCService.empty "peerA").2).addedIceCandidates =
      [] ∧
    getPendingCandidates
        (storePendingCandidate
          (storePendingCandidate [] "peerA" ⟨"candidate:9 1 udp 1 1.1.1.1 1 typ host", "0", 0⟩)
          "peerA" ⟨"candidate:8 1 udp 1 2.2.2.2 1 typ srflx", "0", 0⟩)
        "peerA" =
      [⟨"candidate:9 1 udp 1 1.1.1.1 1 typ host", "0", 0⟩,
       ⟨"candidate:8 1 udp 1 2.2.2.2 1 typ srflx", "0", 0⟩] := by
  decide

/-! ## Claim C4: send on a channel that is not open -/

/-- C4 counterexample: a send invoked with the socket absent or in a
non-open ready state evaluates to the logged drop `notOpenLogged` with the
channel state unchanged; the call returns normally (the embedding's result
type has no failure alternative because `sendSignalingMessage` never
throws), so no `ChannelNotOpenError` is surfaced to the caller and the
envelope is silently discarded after the log line — refuting the claim at
this input. -/
theorem sendSignalingMessage_closed_is_logged_drop :
    SignalingService.sendSignalingMessage { socket := some 3 }
        ⟨"offer", some "alice", some "bob"⟩ =
      ({ socket := some 3 }, SendResult.notOpenLogged) ∧
    SignalingService.sendSignalingMessage { socket := none }
        ⟨"offer", some "alice", some "bob"⟩ =
      ({ socket := none }, SendResult.notOpenLogged) := by
  decide

/-- C4 amended: if `send` is invoked while the signaling channel is not in
an open state, the envelope is discarded after logging
`WebSocket is not open`; no error value is surfaced to the caller and the
channel state is unchanged (nothing is buffered). -/
theorem sendSignalingMessage_not_open_drops
    (channel : SignalingChannelState) (message : SignalingMessage)
    (h : ∀ rs, channel.socket = some rs → rs ≠ wsOPEN) :
    SignalingService.sendSignalingMessage channel message =
      (channel, SendResult.notOpenLogged) := by
  unfold SignalingService.sendSignalingMessage
  cases hs : channel.socket with
  | none => rfl
  | some rs =>
    have hne := h rs hs
    simp [beq_iff_eq, hne]

/-- Witness for C4's amended statement at a concrete closed channel. -/
theorem sendSignalingMessage_not_open_drops_witness :
    SignalingService.sendSignalingMessage { socket := some 0 }
        ⟨"join", none, none⟩ =
      ({ socket := some 0 }, SendResult.notOpenLogged) :=
  sendSignalingMessage_not_open_drops { socket := some 0 } ⟨"join", none, none⟩
    (by intro rs hrs; simp only [Option.some.injEq] at hrs; subst hrs; decide)

/-! ## Claim C7: envelopes addressed to another participant -/

/-- C7 counterexample: with every callback registered, an `offer` envelope
whose `to` is `bob` (different from the local participant `alice`; the
adapter's dispatch does not consult the local identity at all) is
dispatched by `SignalingService.handleSignalingMessage` to the registered
`onSignalingMessage` handler — refuting "never dispatched to any registered
handler" at this input. -/
theorem misaddressed_offer_still_dispatched :
    SignalingService.handleSignalingMessage ⟨true, true, true, true, true, true⟩
        ⟨"offer", some "bob", some "bob"⟩ =
      some (SignalingDispatch.signalingMessage ⟨"offer", some "bob", some "bob"⟩) ∧
    (SignalingMessage.mk "offer" (some "bob") (some "bob")).toId ≠ some "alice" := by
  decide

/-- C7 amended: a peer-directed envelope (`offer`, `answer`,
`ice_candidate`) is dispatched by the adapter to the registered
`onSignalingMessage` handler regardless of its `to` field; the drop happens
one layer up: the meeting-level handler returns without any processing
whenever `to` differs from the local username. -/
theorem misaddressed_envelopes_dropped_at_meeting
    (callbacks : SignalingCallbacks) (username : String)
    (message : SignalingMessage)
    (htype : message.type = "offer" ∨ message.type = "answer" ∨
      message.type = "ice_candidate") :
    (callbacks.onSignalingMessage = true →
      SignalingService.handleSignalingMessage callbacks message =
        some (SignalingDispatch.signalingMessage message)) ∧
    (message.toId ≠ some username →
      OptimizedMeeting.handleSignalingMessage username message =
        MeetingAction.ignored) := by
  constructor
  · intro hcb
    rcases htype with h | h | h <;>
      simp [SignalingService.handleSignalingMessage, h, hcb]
  · intro hto
    simp [OptimizedMeeting.handleSignalingMessage, hto]

/-- Witness for C7's amended statement: a concrete misaddressed offer is
dispatched to the meeting handler and dropped there. -/
theorem misaddressed_envelopes_dropped_at_meeting_witness :
    SignalingService.handleSignalingMessage ⟨true, true, true, true, true, true⟩
        ⟨"offer", some "carol", some "carol"⟩ =
      some (SignalingDispatch.signalingMessage ⟨"offer", some "carol", some "carol"⟩) ∧
    OptimizedMeeting.handleSignalingMessage "alice"
        ⟨"offer", some "carol", some "carol"⟩ = MeetingAction.ignored := by
  have h := misaddressed_envelopes_dropped_at_meeting
    ⟨true, true, true, true, true, true⟩ "alice"
    ⟨"offer", some "carol", some "carol"⟩ (Or.inl rfl)
  exact ⟨h.1 rfl, h.2 (by decide)⟩

/-! ## Claim C6: first quality sample -/

/-- C6 counterexample: the very first sample after start (monitor state
still at its constructor values) with one healthy inbound video report
still emits a quality event — with bitrate 0 and verdict `poor` — rather
than emitting no bitrate; only the bitrate computation itself waits for the
second sample. -/
theorem first_sample_still_emits :
    processSample monitorInit
        [⟨"inbound-rtp", "video", 1000, 125000, 0, some 0⟩] 5000 =
      (⟨125000, 1000⟩,
       { quality := ConnectionQuality.poor, bitrate := 0, packetLossRate := 0,
         timestamp := 5000 }) := by
  norm_num [processSample, processReport, classifyQuality, monitorInit]

/-- C6 amended: the first sample records the baseline (`bytesReceived` and
`timestamp`) and computes no bitrate delta, but the monitor still emits a
quality event for it whose bitrate field is 0; from the second sample
onward the emitted bitrate is the delta of received bytes (in bits) over
the delta of report timestamps. -/
theorem monitor_first_sample_baseline_second_sample_delta
    (r1 r2 : StatsReport) (t1 t2 : ℚ)
    (h1t : r1.type = "inbound-rtp") (h1k : r1.kind = "video")
    (h2t : r2.type = "inbound-rtp") (h2k : r2.kind = "video")
    (hts : r1.timestamp ≠ 0) :
    (processSample monitorInit [r1] t1).1 =
      { lastBitrate := r1.bytesReceived, lastTimestamp := r1.timestamp } ∧
    (processSample monitorInit [r1] t1).2.bitrate = 0 ∧
    (processSample (processSample monitorInit [r1] t1).1 [r2] t2).2.bitrate =
      8 * (r2.bytesReceived - r1.bytesReceived) / (r2.timestamp - r1.timestamp) := by
  have hst : (processReport monitorInit ⟨0, 0, 0⟩ r1).1 =
      { lastBitrate := r1.bytesReceived, lastTimestamp := r1.timestamp } := by
    cases hpl : r1.packetsLost <;> simp [processReport, h1t, h1k, hpl, monitorInit]
  have hacc : (processReport monitorInit ⟨0, 0, 0⟩ r1).2.totalBitrate = 0 := by
    cases hpl : r1.packetsLost <;> simp [processReport, h1t, h1k, hpl, monitorInit]
  have hsecond :
      (processReport { lastBitrate := r1.bytesReceived, lastTimestamp := r1.timestamp }
        ⟨0, 0, 0⟩ r2).2.totalBitrate =
        8 * (r2.bytesReceived - r1.bytesReceived) / (r2.timestamp - r1.timestamp) := by
    cases hpl : r2.packetsLost <;> simp [processReport, h2t, h2k, hpl, hts]
  refine ⟨?_, ?_, ?_⟩
  · simp only [processSample, List.foldl]
    exact hst
  · simp only [processSample, List.foldl]
    exact hacc
  · simp only [processSample, List.foldl, hst]
    exact hsecond

/-- Witness for C6's amended statement: two concrete inbound video reports
one second apart, 125000 bytes of growth. -/
theorem monitor_first_sample_baseline_second_sample_delta_witness :
    (processSample monitorInit
        [⟨"inbound-rtp", "video", 1000, 125000, 100, some 0⟩] 5000).1 =
      { lastBitrate := 125000, lastTimestamp := 1000 } ∧
    (processSample monitorInit
        [⟨"inbound-rtp", "video", 1000, 125000, 100, some 0⟩] 5000).2.bitrate = 0 ∧
    (processSample
        (processSample monitorInit
          [⟨"inbound-rtp", "video", 1000, 125000, 100, some 0⟩] 5000).1
        [⟨"inbound-rtp", "video", 2000, 250000, 100, some 0⟩] 6000).2.bitrate =
      8 * (250000 - 125000) / (2000 - 1000) := by
  exact monitor_first_sample_baseline_second_sample_delta
    ⟨"inbound-rtp", "video", 1000, 125000, 100, some 0⟩
    ⟨"inbound-rtp", "video", 2000, 250000, 100, some 0⟩ 5000 6000
    rfl rfl rfl rfl (by norm_num)

/-! ## Claim C2: createConnection idempotence -/

/-- Lookup after `Map.set` at the same key yields the stored value. -/
theorem mapGet_mapSet_self {b : Type} (m : List (String × b)) (k : String)
    (v : b) : mapGet (mapSet m k v) k = some v := by
  induction m with
  | nil => simp [mapSet, mapGet]
  | cons hd tl ih =>
    by_cases hk : hd.1 == k
    · simp [mapSet, hk, mapGet]
    · simp [mapSet, hk, mapGet, ih]

/-- Keys after `Map.set` come from the old keys or are the new key. -/
theorem mem_keys_mapSet {b : Type} (m : List (String × b)) (k : String)
    (v : b) (x : String) (hx : x ∈ (mapSet m k v).map Prod.fst) :
    x ∈ m.map Prod.fst ∨ x = k := by
  induction m with
  | nil => simpa [mapSet] using hx
  | cons hd tl ih =>
    by_cases hk : hd.1 == k
    · simp only [mapSet, hk, if_pos] at hx
      rcases (by simpa using hx) with h | h
      · exact Or.inr h
      · exact Or.inl (by simp [h])
    · simp only [mapSet, hk] at hx
      rcases (by simpa using hx) with h | h
      · exact Or.inl (by simp [h])
      · rcases ih (by simpa using h) with h' | h'
        · exact Or.inl (by simp; right; simpa using h')
        · exact Or.inr h'

/-- `Map.set` preserves distinctness of the keys. -/
theorem nodup_keys_mapSet {b : Type} (m : List (String × b)) (k : String)
    (v : b) (hm : (m.map Prod.fst).Nodup) :
    ((mapSet m k v).map Prod.fst).Nodup := by
  induction m with
  | nil => simp [mapSet]
  | cons hd tl ih =>
    simp only [List.map_cons, List.nodup_cons] at hm
    by_cases hk : hd.1 == k
    · simp only [mapSet, hk, if_pos, List.map_cons, List.nodup_cons]
      exact ⟨by rw [← (by simpa using hk : hd.1 = k)]; exact hm.1, hm.2⟩
    · simp only [mapSet, hk, if_neg, Bool.false_eq_true, not_false_eq_true,
        List.map_cons, List.nodup_cons]
      refine ⟨fun hmem => ?_, ih hm.2⟩
      rcases mem_keys_mapSet tl k v hd.1 hmem with h | h
      · exact hm.1 h
      · exact absurd (by simp [h]) hk

/-- C2 counterexample: calling `createPeerConnection` twice with the same
peer identifier does not return the same entry unchanged: the second call
allocates a new negotiated-media handle (a different `hid`), and the
registry afterwards maps the peer to the new handle, not the first one. -/
theorem createPeerConnection_not_idempotent :
    ((WebRTCService.createPeerConnection
        (WebRTCService.createPeerConnection WebRTCService.empty "peerB").1
        "peerB").2 ≠
      (WebRTCService.createPeerConnection WebRTCService.empty "peerB").2) ∧
    ((WebRTCService.createPeerConnection
        (WebRTCService.createPeerConnection WebRTCService.empty "peerB").1
        "peerB").2.hid ≠
      (WebRTCService.createPeerConnection WebRTCService.empty "peerB").2.hid) ∧
    mapGet (WebRTCService.createPeerConnection
        (WebRTCService.createPeerConnection WebRTCService.empty "peerB").1
        "peerB").1.peerConnections "peerB" ≠
      some (WebRTCService.createPeerConnection WebRTCService.empty "peerB").2 := by
  decide

/-- C2 amended: `createPeerConnection(p)` always allocates a fresh handle
with reset negotiation state and replaces any existing entry for `p` (so
the registry keeps at most one entry per peer and calling it on an
existing peer yields a handle different from the stored one, rather than
returning that entry unchanged); `closeConnection(p)` followed by
`createPeerConnection(p)` likewise yields a fresh entry with reset
negotiation state. -/
theorem createPeerConnection_allocates_fresh_entry
    (svc : WebRTCService) (peerId : String) :
    mapGet (WebRTCService.createPeerConnection svc peerId).1.peerConnections
        peerId =
      some (WebRTCService.createPeerConnection svc peerId).2 ∧
    (WebRTCService.createPeerConnection svc peerId).2.hid = svc.nextHandleId ∧
    (WebRTCService.createPeerConnection svc peerId).1.nextHandleId =
      svc.nextHandleId + 1 ∧
    (WebRTCService.createPeerConnection svc peerId).2.localDescription = none ∧
    (WebRTCService.createPeerConnection svc peerId).2.remoteDescription = none ∧
    (WebRTCService.createPeerConnection svc peerId).2.addedIceCandidates = [] ∧
    (∀ h, mapGet svc.peerConnections peerId = some h →
      h.hid < svc.nextHandleId →
      (WebRTCService.createPeerConnection svc peerId).2 ≠ h) ∧
    ((svc.peerConnections.map Prod.fst).Nodup →
      ((WebRTCService.createPeerConnection svc peerId).1.peerConnections.map
        Prod.fst).Nodup) ∧
    (WebRTCService.createPeerConnection (WebRTCService.closeConnection svc peerId)
      peerId).2.localDescription = none ∧
    (WebRTCService.createPeerConnection (WebRTCService.closeConnection svc peerId)
      peerId).2.remoteDescription = none ∧
    (WebRTCService.createPeerConnection (WebRTCService.closeConnection svc peerId)
      peerId).2.addedIceCandidates = [] := by
  refine ⟨mapGet_mapSet_self _ _ _, rfl, rfl, rfl, rfl, rfl, ?_, ?_, rfl, rfl, rfl⟩
  · intro h hget hlt heq
    have hh : h.hid = svc.nextHandleId := by rw [← heq]; rfl
    omega
  · intro hnd
    exact nodup_keys_mapSet _ _ _ hnd

/-- Witness for C2's amended statement: re-creating an existing peer's
entry yields a handle different from the stored one, and the key set stays
duplicate-free. -/
theorem createPeerConnection_allocates_fresh_entry_witness :
    (WebRTCService.createPeerConnection
        (WebRTCService.createPeerConnection WebRTCService.empty "p").1 "p").2 ≠
      (WebRTCService.createPeerConnection WebRTCService.empty "p").2 ∧
    ((WebRTCService.createPeerConnection
        (WebRTCService.createPeerConnection WebRTCService.empty "p").1
        "p").1.peerConnections.map Prod.fst).Nodup := by
  have H := createPeerConnection_allocates_fresh_entry
    (WebRTCService.createPeerConnection WebRTCService.empty "p").1 "p"
  exact ⟨H.2.2.2.2.2.2.1
      (WebRTCService.createPeerConnection WebRTCService.empty "p").2
      (by decide) (by decide),
    H.2.2.2.2.2.2.2.1 (by decide)⟩

/-! ## Claim C8: prioritizer contract -/

/-- Characterization of the deduplication key test. -/
theorem candKeyEq_iff (a b : RTCIceCandidateInit) :
    candKeyEq a b = true ↔ (a.candidate = b.candidate ∧ a.sdpMid = b.sdpMid) := by
  simp [candKeyEq]

/-- Entry of the index-annotated list occurring strictly before the
position recorded by a kept entry's `findIndex` has a different key. -/
theorem kept_key_distinct (cs : List RTCIceCandidateInit)
    (p q : Nat × RTCIceCandidateInit) (hp : p ∈ cs.enum)
    (hq : (cs.findIdx (fun c => candKeyEq c q.2) == q.1) = true)
    (hlt : p.1 < q.1) : candKeyEq p.2 q.2 = false := by
  obtain ⟨hlen, hget⟩ := List.getElem?_eq_some_iff.mp (List.mem_enum_iff_getElem?.mp hp)
  have hfi : cs.findIdx (fun c => candKeyEq c q.2) = q.1 := by simpa using hq
  have hlt' : p.1 < cs.findIdx (fun c => candKeyEq c q.2) := by
    rw [hfi]; exact hlt
  have hfalse := List.not_of_lt_findIdx hlt'
  rwa [hget] at hfalse

/-- The deduplicated list contains no two entries with an equal
(descriptor, `sdpMid`) key. -/
theorem pairwise_keys_uniqueCandidates (cs : List RTCIceCandidateInit) :
    (uniqueCandidates cs).Pairwise
      (fun a b => ¬(a.candidate = b.candidate ∧ a.sdpMid = b.sdpMid)) := by
  unfold uniqueCandidates
  rw [List.pairwise_map]
  have h2 : cs.enum.Pairwise (fun p q => p.1 < q.1) :=
    List.pairwise_map.mp (by rw [List.enum_map_fst]; exact List.pairwise_lt_range _)
  have hfilter := h2.sublist (List.filter_sublist
    (p := fun ic => cs.findIdx (fun c => candKeyEq c ic.2) == ic.1) cs.enum)
  refine hfilter.imp_of_mem ?_
  intro a b ha hb hlt hkey
  have hfalse := kept_key_distinct cs a b (List.mem_filter.mp ha).1
    (List.mem_filter.mp hb).2 hlt
  exact absurd ((candKeyEq_iff a.2 b.2).mpr hkey) (by simp [hfalse])

/-- The first occurrence of a key survives the deduplication. -/
theorem first_occurrence_mem_uniqueCandidates
    (l1 l2 : List RTCIceCandidateInit) (c : RTCIceCandidateInit)
    (hfirst : ∀ b ∈ l1, ¬(b.candidate = c.candidate ∧ b.sdpMid = c.sdpMid)) :
    c ∈ uniqueCandidates (l1 ++ c :: l2) := by
  have hfind : (l1 ++ c :: l2).findIdx (fun x => candKeyEq x c) = l1.length := by
    induction l1 with
    | nil => simp [List.findIdx_cons, candKeyEq]
    | cons b tl ih =>
      have hb : candKeyEq b c = false := by
        have hnb := hfirst b (List.mem_cons_self b tl)
        by_cases hcb : candKeyEq b c = true
        · exact absurd ((candKeyEq_iff b c).mp hcb) hnb
        · simpa using hcb
      have ih' := ih (fun x hx => hfirst x (List.mem_cons_of_mem _ hx))
      simp [List.cons_append, List.findIdx_cons, hb, ih']
  have hget : (l1 ++ c :: l2)[l1.length]? = some c := by
    rw [List.getElem?_append_right (Nat.le_refl _)]
    simp
  have henum : (l1.length, c) ∈ (l1 ++ c :: l2).enum :=
    List.mem_enum_iff_getElem?.mpr hget
  unfold uniqueCandidates
  apply List.mem_map.mpr
  refine ⟨(l1.length, c), ?_, rfl⟩
  apply List.mem_filter.mpr
  exact ⟨henum, by simp [hfind]⟩

/-- Every key of the input is represented in the deduplicated list. -/
theorem key_covered_uniqueCandidates (cs : List RTCIceCandidateInit) :
    ∀ c ∈ cs, ∃ d ∈ uniqueCandidates cs,
      d.candidate = c.candidate ∧ d.sdpMid = c.sdpMid := by
  intro c hc
  have hex : ∃ x ∈ cs, candKeyEq x c := ⟨c, hc, by simp [candKeyEq]⟩
  have hlen := List.findIdx_lt_length_of_exists hex
  have hkey : candKeyEq cs[cs.findIdx (fun x => candKeyEq x c)] c = true :=
    List.findIdx_getElem (w := hlen)
  have hkeys := (candKeyEq_iff _ _).mp hkey
  refine ⟨cs[cs.findIdx (fun x => candKeyEq x c)], ?_, hkeys.1, hkeys.2⟩
  unfold uniqueCandidates
  apply List.mem_map.mpr
  refine ⟨(cs.findIdx (fun x => candKeyEq x c),
    cs[cs.findIdx (fun x => candKeyEq x c)]), ?_, rfl⟩
  apply List.mem_filter.mpr
  constructor
  · exact List.mem_enum_iff_getElem?.mpr (by simp)
  · have h1 := hkeys.1
    have h2 := hkeys.2
    have hfun : (fun x => candKeyEq x cs[cs.findIdx (fun x => candKeyEq x c)]) =
        (fun x => candKeyEq x c) := by
      funext x
      unfold candKeyEq at h1 h2 ⊢
      rw [h1, h2]
    simp [hfun]

/-- C8: `prioritize` deduplicates by the (descriptor, `sdpMid`) pair
keeping the first occurrence of each key (the output has pairwise distinct
keys, is a selection of input elements covering every input key, and
retains the earliest element of each key), and the output is a permutation
of the deduplicated input ordered descending by the type priority (a
descriptor containing `host` ranks 3, `srflx` 2, `relay` 1, anything else
0) with ties preserving relative input order; purity is inherent in the
embedding, matching the source, whose `filter` copies the array before the
in-place sort. -/
theorem optimizeIceCandidates_spec (candidates : List RTCIceCandidateInit) :
    (optimizeIceCandidates candidates).Pairwise
      (fun a b => ¬(a.candidate = b.candidate ∧ a.sdpMid = b.sdpMid)) ∧
    List.Perm (optimizeIceCandidates candidates) (uniqueCandidates candidates) ∧
    List.Sublist (uniqueCandidates candidates) candidates ∧
    (∀ l1 c l2, candidates = l1 ++ c :: l2 →
      (∀ b ∈ l1, ¬(b.candidate = c.candidate ∧ b.sdpMid = c.sdpMid)) →
      c ∈ uniqueCandidates candidates) ∧
    (∀ c ∈ candidates, ∃ d ∈ uniqueCandidates candidates,
      d.candidate = c.candidate ∧ d.sdpMid = c.sdpMid) ∧
    (optimizeIceCandidates candidates).Pairwise
      (fun a b => getPriority b.candidate ≤ getPriority a.candidate) ∧
    (∀ a b, getPriority a.candidate = getPriority b.candidate →
      List.Sublist [a, b] (uniqueCandidates candidates) →
      List.Sublist [a, b] (optimizeIceCandidates candidates)) ∧
    (∀ s, strIncludes s "host" = true → getPriority s = 3) ∧
    (∀ s, strIncludes s "host" = false → strIncludes s "srflx" = true →
      getPriority s = 2) ∧
    (∀ s, strIncludes s "host" = false → strIncludes s "srflx" = false →
      strIncludes s "relay" = true → getPriority s = 1) ∧
    (∀ s, strIncludes s "host" = false → strIncludes s "srflx" = false →
      strIncludes s "relay" = false → getPriority s = 0) := by
  refine ⟨?_, ?_, ?_, ?_, ?_, ?_, ?_, ?_, ?_, ?_, ?_⟩
  · exact ((List.perm_insertionSort candLE (uniqueCandidates candidates)).symm).pairwise
      (pairwise_keys_uniqueCandidates candidates)
      (fun hxy hconj => hxy ⟨hconj.1.symm, hconj.2.symm⟩)
  · exact List.perm_insertionSort candLE _
  · have hsub := (List.filter_sublist
      (p := fun ic => candidates.findIdx (fun c => candKeyEq c ic.2) == ic.1)
      candidates.enum).map Prod.snd
    rw [List.enum_map_snd] at hsub
    exact hsub
  · intro l1 c l2 heq hfirst
    subst heq
    exact first_occurrence_mem_uniqueCandidates l1 l2 c hfirst
  · exact key_covered_uniqueCandidates candidates
  · exact (List.sorted_insertionSort candLE (uniqueCandidates candidates)).imp
      (fun hab => by unfold candLE compareFn at hab; omega)
  · intro a b hpri hsub
    have hab : candLE a b := by unfold candLE compareFn; omega
    exact List.pair_sublist_insertionSort hab hsub
  · intro s h
    simp [getPriority, h]
  · intro s h1 h2
    simp [getPriority, h1, h2]
  · intro s h1 h2 h3
    simp [getPriority, h1, h2, h3]
  · intro s h1 h2 h3
    simp [getPriority, h1, h2, h3]

/-- Witness for C8: on a concrete three-candidate list with two tied host
candidates, the tie preserves input order in the output, and the head
element (first occurrence of its key) survives deduplication. -/
theorem optimizeIceCandidates_spec_witness :
    List.Sublist
      [⟨"candidate:a 1 udp 1 1.1.1.1 1 typ host", "0", 0⟩,
       ⟨"candidate:c 1 udp 1 3.3.3.3 1 typ host", "0", 1⟩]
      (optimizeIceCandidates
        [⟨"candidate:a 1 udp 1 1.1.1.1 1 typ host", "0", 0⟩,
         ⟨"candidate:b 1 udp 1 2.2.2.2 1 typ srflx", "0", 0⟩,
         ⟨"candidate:c 1 udp 1 3.3.3.3 1 typ host", "0", 1⟩]) ∧
    (⟨"candidate:a 1 udp 1 1.1.1.1 1 typ host", "0", 0⟩ : RTCIceCandidateInit) ∈
      uniqueCandidates
        [⟨"candidate:a 1 udp 1 1.1.1.1 1 typ host", "0", 0⟩,
         ⟨"candidate:b 1 udp 1 2.2.2.2 1 typ srflx", "0", 0⟩,
         ⟨"candidate:c 1 udp 1 3.3.3.3 1 typ host", "0", 1⟩] := by
  have H := optimizeIceCandidates_spec
    [⟨"candidate:a 1 udp 1 1.1.1.1 1 typ host", "0", 0⟩,
     ⟨"candidate:b 1 udp 1 2.2.2.2 1 typ srflx", "0", 0⟩,
     ⟨"candidate:c 1 udp 1 3.3.3.3 1 typ host", "0", 1⟩]
  refine ⟨H.2.2.2.2.2.2.1 _ _ (by decide) (by decide),
    H.2.2.2.1 [] _ [⟨"candidate:b 1 udp 1 2.2.2.2 1 typ srflx", "0", 0⟩,
      ⟨"candidate:c 1 udp 1 3.3.3.3 1 typ host", "0", 1⟩] rfl (by simp)⟩
